import Mathlib

/-!
Verification of the client-side session/validation layer of the
lazorkit-passkey-demo repository: the session-status tracker
(src/hooks/useSessionStatus.ts), the input validators
(src/lib/validation.ts), the balance fetcher (src/hooks/useBalance.ts)
and the transfer operation (src/hooks/useTransfer.ts).

The embedding is shallow: each TypeScript function becomes a Lean
function over explicit inputs.  JavaScript numbers are modelled by
exact rationals extended with NaN and the two infinities (the inputs
the development evaluates are exactly representable, so no double
rounding is observable); fallible parsing returns an Option or the
NaN marker; the browser storage slot is an explicit
Option String value threaded through the state-updating functions.
-/

namespace LazorKit

/-! ## JavaScript numeric string parsing -/

/-- Characters skipped by the leading-whitespace phase of parseInt and
parseFloat (the common ASCII subset of the StrWhiteSpaceChar set). -/
def jsWhitespace (c : Char) : Bool :=
  c = ' ' ∨ c = '\t' ∨ c = '\n' ∨ c = '\r' ∨ c = '\x0b' ∨ c = '\x0c'

/-- Longest prefix of decimal digits. -/
def takeDigits (cs : List Char) : List Char :=
  cs.takeWhile (fun c => c.isDigit)

/-- Value of a list of decimal digits, most significant first. -/
def digitsToNat (ds : List Char) : ℕ :=
  ds.foldl (fun a c => a * 10 + (c.toNat - 48)) 0

/-- Split an optional leading sign: (isNegative, rest). -/
def splitSign : List Char → Bool × List Char
  | '-' :: r => (true, r)
  | '+' :: r => (false, r)
  | r => (false, r)

/-- Model of JavaScript parseInt(s, 10): skip leading whitespace, read an
optional sign and then the longest prefix of decimal digits; NaN (here
none) when no digit is found. -/
def jsParseInt (s : String) : Option ℤ :=
  let cs := s.toList.dropWhile jsWhitespace
  let (neg, rest) := splitSign cs
  let ds := takeDigits rest
  if ds.isEmpty then none
  else some (if neg then -(digitsToNat ds : ℤ) else (digitsToNat ds : ℤ))

/-- A JavaScript number as far as this layer can observe it: NaN, an
infinity, or a finite value (modelled exactly as a rational). -/
inductive JsNum where
  | nan : JsNum
  | inf (neg : Bool) : JsNum
  | fin (q : ℚ) : JsNum
deriving DecidableEq

/-- Does a list start with the given pattern? -/
def startsWithL : List Char → List Char → Bool
  | _, [] => true
  | [], _ :: _ => false
  | a :: as, b :: bs => a = b && startsWithL as bs

/-- Does a list contain the given pattern as a contiguous run? -/
def containsL : List Char → List Char → Bool
  | [], sub => sub.isEmpty
  | a :: as, sub => startsWithL (a :: as) sub || containsL as sub

/-- The exact rational denoted by a decimal literal
sign intPart . fracPart e expSign expDigits, built with natural-number
arithmetic and one mkRat so that it evaluates by kernel reduction:
the numerator is the mantissa digits as one integer, scaled up by
10^exponent when the exponent is positive; the denominator is
10^(length of fracPart), scaled up by 10^|exponent| when the exponent
is negative. -/
def decimalValue (neg : Bool) (intPart fracPart : List Char)
    (eneg : Bool) (expVal : ℕ) : ℚ :=
  let m : ℕ := digitsToNat intPart * 10 ^ fracPart.length + digitsToNat fracPart
  let num : ℕ := if eneg then m else m * 10 ^ expVal
  let den : ℕ := if eneg then 10 ^ fracPart.length * 10 ^ expVal
                 else 10 ^ fracPart.length
  if neg then mkRat (-(num : ℤ)) den else mkRat (num : ℤ) den

/-- Model of JavaScript parseFloat: skip leading whitespace, read an
optional sign, then either the literal Infinity or a decimal mantissa
(digits, optional fraction) with an optional exponent part; trailing
characters are ignored; NaN when no mantissa digit is found. -/
def jsParseFloat (s : String) : JsNum :=
  let cs := s.toList.dropWhile jsWhitespace
  let (neg, rest) := splitSign cs
  if startsWithL rest "Infinity".toList then .inf neg
  else
    let intPart := takeDigits rest
    let rest2 := rest.drop intPart.length
    let (fracPart, rest3) :=
      match rest2 with
      | '.' :: r => (takeDigits r, r.drop (takeDigits r).length)
      | r => ([], r)
    if intPart.isEmpty ∧ fracPart.isEmpty then .nan
    else
      match rest3 with
      | c :: r =>
        if c = 'e' ∨ c = 'E' then
          let (eneg, er) := splitSign r
          let eds := takeDigits er
          if eds.isEmpty then .fin (decimalValue neg intPart fracPart false 0)
          else .fin (decimalValue neg intPart fracPart eneg (digitsToNat eds))
        else .fin (decimalValue neg intPart fracPart false 0)
      | [] => .fin (decimalValue neg intPart fracPart false 0)

/-- NaN test (Number.isNaN on the parse result). -/
def jsIsNaN : JsNum → Bool
  | .nan => true
  | _ => false

/-- Comparison x <= c against a finite constant; false for NaN, true for
negative infinity, false for positive infinity. -/
def jsLeQ (x : JsNum) (c : ℚ) : Bool :=
  match x with
  | .nan => false
  | .inf neg => neg
  | .fin q => q ≤ c

/-- Comparison x > c against a finite constant; false for NaN, true for
positive infinity, false for negative infinity. -/
def jsGtQ (x : JsNum) (c : ℚ) : Bool :=
  match x with
  | .nan => false
  | .inf neg => !neg
  | .fin q => c < q

/-- The largest safe integer of a JavaScript double, 2^53 - 1. -/
def MAX_SAFE_INTEGER : ℕ := 9007199254740991

/-- Model of Number.isSafeInteger (Math.floor (x * mult)): Math.floor of a
finite value is an integer, so the test is a magnitude bound; NaN and the
infinities are never safe integers.  The product q * mult is written as
mkRat (q.num * mult) q.den so the definition evaluates by kernel
reduction (qMulNat_eq below proves it is the product). -/
def qMulNat (q : ℚ) (mult : ℕ) : ℚ := mkRat (q.num * (mult : ℤ)) q.den

def jsSafeFloorMul (x : JsNum) (mult : ℕ) : Bool :=
  match x with
  | .fin q => (Rat.floor (qMulNat q mult)).natAbs ≤ MAX_SAFE_INTEGER
  | _ => false

/-! ## Session status tracker — src/hooks/useSessionStatus.ts

The hook keeps one browser-storage slot (key "lazorkit_session",
modelled as an Option String) and one piece of component state, the
boolean isReturningUser (initially false).  Its effect runs the
following check; the hook returns only the pair
(isReturningUser, clearSession) — no timestamp value is exposed. -/

/-- 24 hours in milliseconds (SESSION_EXPIRY_MS). -/
def SESSION_EXPIRY_MS : ℤ := 24 * 60 * 60 * 1000

/-- One run of the effect body of useSessionStatus, translated from the
source.  Inputs: the SDK connection flag and wallet public key, the
current time (Date.now()), the stored value under the session key, and
the previous isReturningUser state.  Output: the stored value after the
run and the new isReturningUser state.
  - connected with a wallet: setItem(key, Date.now().toString());
    setIsReturningUser(false);
  - otherwise, when a value is stored: lastActive = parseInt(stored, 10);
    when Date.now() - lastActive > SESSION_EXPIRY_MS the item is removed
    and the flag cleared (note a NaN lastActive makes the comparison
    false, so the else branch runs); else setIsReturningUser(true);
  - otherwise nothing changes. -/
def sessionCheck (isConnected : Bool) (smartWalletPubkey : Option String)
    (now : ℤ) (stored : Option String) (prevReturning : Bool) :
    Option String × Bool :=
  if isConnected ∧ smartWalletPubkey.isSome then
    (some (toString now), false)
  else
    match stored with
    | some s =>
      let lastActive := jsParseInt s
      let expired : Bool :=
        match lastActive with
        | some t => now - t > SESSION_EXPIRY_MS
        | none => false
      if expired then (none, false) else (some s, true)
    | none => (none, prevReturning)

/-- clearSession: localStorage.removeItem(SESSION_KEY). -/
def clearSession (_stored : Option String) : Option String := none

/-! ## Input validation — src/lib/validation.ts -/

/-- The discriminated result type of both validators:
type ValidationResult = (valid : true) or (valid : false, error : string). -/
inductive ValidationResult where
  | valid : ValidationResult
  | invalid (error : String) : ValidationResult
deriving DecidableEq

/-- The two supported token kinds of the demo. -/
inductive TokenType where
  | SOL : TokenType
  | USDC : TokenType
deriving DecidableEq

/-- Security ceiling for SOL amounts. -/
def MAX_SOL_AMOUNT : ℕ := 1000000

/-- Security ceiling for USDC amounts. -/
def MAX_USDC_AMOUNT : ℕ := 10000000

/-- The per-token ceiling chosen by validateAmount. -/
def maxAmountOf (t : TokenType) : ℕ :=
  match t with
  | .SOL => MAX_SOL_AMOUNT
  | .USDC => MAX_USDC_AMOUNT

/-- The per-token smallest-unit multiplier chosen by validateAmount:
10^9 lamports per SOL, 10^6 base units per USDC. -/
def multiplierOf (t : TokenType) : ℕ :=
  match t with
  | .SOL => 1000000000
  | .USDC => 1000000

/-- The string max.toLocaleString() + " " + tokenType produced by the
ceiling branch (en-US grouping). -/
def maxMessageOf (t : TokenType) : String :=
  match t with
  | .SOL => "Max 1,000,000 SOL"
  | .USDC => "Max 10,000,000 USDC"

/-- validateAmount, translated from the source:
parsed = parseFloat(amount); reject NaN or parsed <= 0; reject
parsed > max for the per-token ceiling; reject when
Math.floor(parsed * multiplier) is not a safe integer; else valid. -/
def validateAmount (amount : String) (tokenType : TokenType) : ValidationResult :=
  let parsed := jsParseFloat amount
  if jsIsNaN parsed || jsLeQ parsed (mkRat 0 1) then .invalid "Enter a valid amount"
  else if jsGtQ parsed (mkRat (maxAmountOf tokenType : ℤ) 1) then .invalid (maxMessageOf tokenType)
  else if !jsSafeFloorMul parsed (multiplierOf tokenType) then .invalid "Amount too large"
  else .valid

/-! ### Base58 public-key parsing (the @solana/web3.js PublicKey constructor)

new PublicKey(string) base58-decodes the string with the Bitcoin
alphabet and throws unless the decoded byte string is exactly 32 bytes.
SystemProgram.programId is the all-zero key, encoded as 32 ones. -/

/-- The Bitcoin base58 alphabet. -/
def base58Alphabet : List Char :=
  "123456789ABCDEFGHJKLMNPQRSTUVWXYZabcdefghijkmnopqrstuvwxyz".toList

/-- Value of one base58 digit, none for a character outside the alphabet. -/
def b58Val (c : Char) : Option ℕ :=
  let idx := base58Alphabet.indexOf c
  if idx < base58Alphabet.length then some idx else none

/-- Minimal big-endian byte string of a natural number (fuel-driven so the
definition evaluates by kernel reduction; 64 bytes cover every value a
44-character base58 string can denote). -/
def natToBEBytesFuel : ℕ → ℕ → List ℕ
  | 0, _ => []
  | fuel + 1, n => if n = 0 then [] else natToBEBytesFuel fuel (n / 256) ++ [n % 256]

/-- Minimal big-endian byte string of a natural number. -/
def natToBEBytes (n : ℕ) : List ℕ := natToBEBytesFuel 64 n

/-- base58 decoding: every leading 1 contributes one zero byte, the digit
string as a whole denotes the value of the remaining bytes; none when a
character is outside the alphabet. -/
def base58Decode (s : String) : Option (List ℕ) :=
  let cs := s.toList
  if cs.all (fun c => (b58Val c).isSome) then
    let value := cs.foldl (fun a c => a * 58 + ((b58Val c).getD 0)) 0
    let leading := (cs.takeWhile (fun c => c = '1')).length
    some (List.replicate leading 0 ++ natToBEBytes value)
  else none

/-- The PublicKey constructor: base58-decode and require 32 bytes. -/
def parsePubkey (s : String) : Option (List ℕ) :=
  match base58Decode s with
  | some bytes => if bytes.length = 32 then some bytes else none
  | none => none

/-- SystemProgram.programId: the 32-byte all-zero key. -/
def systemProgramId : List ℕ := List.replicate 32 0

/-- Model of String.prototype.trim over the ASCII whitespace set. -/
def strTrim (s : String) : String :=
  String.mk (((s.toList.dropWhile jsWhitespace).reverse.dropWhile jsWhitespace).reverse)

/-- validateAddress, translated from the source: reject when the trimmed
string is empty; reject trimmed length outside [32, 44]; try
new PublicKey(trimmed) — a parse failure is caught and rejected; reject
the system-program key; else valid. -/
def validateAddress (address : String) : ValidationResult :=
  if (strTrim address).toList.isEmpty then .invalid "Address required"
  else
    let trimmed := strTrim address
    if trimmed.toList.length < 32 ∨ 44 < trimmed.toList.length then
      .invalid "Invalid address length"
    else
      match parsePubkey trimmed with
      | none => .invalid "Invalid Solana address"
      | some pubkey =>
        if pubkey = systemProgramId then .invalid "Cannot send to system program"
        else .valid

/-- ASCII lower-casing of a string (model of toLowerCase on the
keyword-relevant alphabet). -/
def strToLower (s : String) : String :=
  String.mk (s.toList.map Char.toLower)

/-- Substring test: model of String.prototype.includes. -/
def strIncludes (s pat : String) : Bool :=
  containsL s.toList pat.toList

/-- sanitizeError, translated from the source.  A thrown value that is
not an Error instance yields "Operation failed"; otherwise the
lower-cased message is matched against the keyword table in order;
otherwise the detailed message is shown only outside production. -/
def sanitizeError (isErrorInstance : Bool) (message : String)
    (isProduction : Bool) : String :=
  if !isErrorInstance then "Operation failed"
  else
    let msg := strToLower message
    if strIncludes msg "insufficient" then "Insufficient balance"
    else if strIncludes msg "network" then "Network error. Try again."
    else if strIncludes msg "user rejected" then "Transaction cancelled"
    else if strIncludes msg "timeout" then "Request timed out"
    else if isProduction then "Transaction failed"
    else message

/-! ## Balance fetcher — src/hooks/useBalance.ts -/

/-- A thrown JavaScript value as the error handlers inspect it: whether it
is an Error instance, and its message. -/
structure JsError where
  isErrorInstance : Bool
  message : String
deriving DecidableEq

/-- The two balances kept by useBalance.  The SOL side is
solBalance / LAMPORTS_PER_SOL, an exact rational here; the USDC side is
whatever parseFloat produced, so it keeps the JsNum type. -/
structure Balances where
  sol : ℚ
  usdc : JsNum
deriving DecidableEq

/-- Lamports per SOL. -/
def LAMPORTS_PER_SOL : ℕ := 1000000000

/-- One run of fetchBalances, translated from the source.  Inputs: the
wallet key (the run returns immediately without it), the result of the
native getBalance query, the result of the token-account query (its
uiAmountString, which may be null), and the previous state.  The outer
try wraps both queries, so a native-side throw reaches the outer catch:
balances are left unchanged and the error message is stored.  The inner
try wraps only the token query: its throw is swallowed and the USDC
balance set to 0.  A run that reaches setBalances stores both values and
leaves the error cleared (setError(null) runs first). -/
def fetchBalances (smartWalletPubkey : Option String)
    (solQuery : Except JsError ℕ)
    (usdcQuery : Except JsError (Option String))
    (prev : Balances) (prevError : Option String) : Balances × Option String :=
  if smartWalletPubkey.isNone then (prev, prevError)
  else
    match solQuery with
    | .error e =>
      (prev, some (if e.isErrorInstance then e.message else "Failed to fetch balances"))
    | .ok solBalance =>
      let usdcBalance : JsNum :=
        match usdcQuery with
        | .ok uiAmountString => jsParseFloat (uiAmountString.getD "0")
        | .error _ => .fin (mkRat 0 1)
      ({ sol := mkRat (solBalance : ℤ) LAMPORTS_PER_SOL, usdc := usdcBalance }, none)

/-! ## Transfer operation — src/hooks/useTransfer.ts -/

/-- The TransferResult record: success, optional signature, optional
error message. -/
structure TransferResult where
  success : Bool
  signature : Option String
  error : Option String
deriving DecidableEq

/-- A transfer run together with whether signAndSendTransaction was
invoked. -/
structure TransferOutcome where
  result : TransferResult
  sdkCalled : Bool
deriving DecidableEq

/-- One call of transfer(params), translated from the source.  amountStr
stands for amount.toString(), the string the source hands to
validateAmount.  The sdk argument is the outcome signAndSendTransaction
would produce if invoked; the sdkCalled flag records whether the run
reaches that call.  Order of the checks in the source: connection,
address, amount, then the SDK call whose throw is sanitized. -/
def transfer (isConnected : Bool) (smartWalletPubkey : Option String)
    (recipient : String) (amountStr : String) (token : TokenType)
    (isProduction : Bool) (sdk : Except JsError String) : TransferOutcome :=
  if ¬(isConnected ∧ smartWalletPubkey.isSome) then
    ⟨⟨false, none, some "Wallet not connected"⟩, false⟩
  else
    match validateAddress recipient with
    | .invalid e => ⟨⟨false, none, some e⟩, false⟩
    | .valid =>
      match validateAmount amountStr token with
      | .invalid e => ⟨⟨false, none, some e⟩, false⟩
      | .valid =>
        match sdk with
        | .ok sig => ⟨⟨true, some sig, none⟩, true⟩
        | .error e =>
          ⟨⟨false, none, some (sanitizeError e.isErrorInstance e.message isProduction)⟩, true⟩

/-! ## Claim-side definitions

The following definitions restate, in the claims' own words, the
behaviour the spec ascribes to the validators and to the transfer
pre-flight; the theorems below compare them with the definitions
translated from the source. -/

/-- The amount validator as claim C4 words it: invalid when the string is
non-numeric or parses to a non-positive value; invalid with a reason
referencing the maximum when the parsed value exceeds the fixed ceiling
(1,000,000 for SOL, 10,000,000 for USDC); invalid when the value scaled
by the smallest-unit multiplier (10^9 for SOL, 10^6 for USDC) exceeds
the safe-integer range; otherwise valid. -/
def validateAmountClaim (s : String) (t : TokenType) : ValidationResult :=
  let parsed := jsParseFloat s
  if jsIsNaN parsed || jsLeQ parsed (mkRat 0 1) then .invalid "Enter a valid amount"
  else if jsGtQ parsed (mkRat (if t = .SOL then 1000000 else 10000000) 1) then
    .invalid (maxMessageOf t)
  else if !jsSafeFloorMul parsed (if t = .SOL then 1000000000 else 1000000) then
    .invalid "Amount too large"
  else .valid

/-- The scaled smallest-unit integer the validator guards,
Math.floor(parsed * multiplier). -/
def scaledUnits (s : String) (t : TokenType) : Option ℤ :=
  match jsParseFloat s with
  | .fin q => some (Rat.floor (qMulNat q (multiplierOf t)))
  | _ => none

/-- The address validator as claim C5 words it: invalid for
empty/whitespace-only input; invalid for trimmed length outside
[32, 44]; invalid for strings that fail to parse as a structured
address; invalid for the reserved system-program address; valid for
every other syntactically valid address. -/
def validateAddressClaim (s : String) : ValidationResult :=
  let trimmed := strTrim s
  if trimmed.toList.isEmpty then .invalid "Address required"
  else if trimmed.toList.length < 32 ∨ 44 < trimmed.toList.length then
    .invalid "Invalid address length"
  else
    match parsePubkey trimmed with
    | none => .invalid "Invalid Solana address"
    | some pubkey =>
      if pubkey = systemProgramId then .invalid "Cannot send to system program"
      else .valid

/-- The error sanitizer as claim C9 words it: a fixed keyword table
(insufficient, network, user rejected, timeout) mapped in order; a
non-Error value yields a generic message; an unmatched error shows a
generic failure message in production and the raw message otherwise. -/
def sanitizeErrorClaim (isErrorInstance : Bool) (message : String)
    (isProduction : Bool) : String :=
  if !isErrorInstance then "Operation failed"
  else
    let msg := strToLower message
    if strIncludes msg "insufficient" then "Insufficient balance"
    else if strIncludes msg "network" then "Network error. Try again."
    else if strIncludes msg "user rejected" then "Transaction cancelled"
    else if strIncludes msg "timeout" then "Request timed out"
    else if isProduction then "Transaction failed"
    else message

/-- The local rejection claim C8 describes: a transfer request is turned
away before the SDK call exactly when no wallet is connected or the
recipient or the amount fails validation, with the corresponding local
error. -/
def localRejection (isConnected : Bool) (smartWalletPubkey : Option String)
    (recipient : String) (amountStr : String) (token : TokenType) : Option String :=
  if ¬(isConnected ∧ smartWalletPubkey.isSome) then some "Wallet not connected"
  else
    match validateAddress recipient with
    | .invalid e => some e
    | .valid =>
      match validateAmount amountStr token with
      | .invalid e => some e
      | .valid => none

/-! ## Helper lemmas -/

/-- Rat.floor agrees with the mathematical floor. -/
theorem ratFloor_eq_intFloor (q : ℚ) : Rat.floor q = ⌊q⌋ :=
  (Rat.floor_def' q).trans Rat.floor_def.symm

/-- qMulNat is multiplication by the natural number. -/
theorem qMulNat_eq (q : ℚ) (m : ℕ) : qMulNat q m = q * (m : ℚ) := by
  have hden : ((q.den : ℚ)) ≠ 0 := by
    exact_mod_cast q.den_nz
  rw [qMulNat, Rat.mkRat_eq_divInt, Rat.divInt_eq_div]
  push_cast
  rw [div_eq_iff hden, ← Rat.mul_den_eq_num]
  ring

/-- Bound on the scaled floor: a positive amount below the ceiling M
scales by mult to a floor between 0 and M * mult. -/
theorem floor_scaled_bounds (q : ℚ) (M mult : ℕ) (h0 : 0 < q) (hM : q ≤ (M : ℚ)) :
    0 ≤ ⌊q * (mult : ℚ)⌋ ∧ ⌊q * (mult : ℚ)⌋ ≤ ((M * mult : ℕ) : ℤ) := by
  constructor
  · exact Int.floor_nonneg.mpr (by positivity)
  · calc ⌊q * (mult : ℚ)⌋ ≤ ⌊((M : ℚ) * (mult : ℚ))⌋ :=
          Int.floor_le_floor (mul_le_mul_of_nonneg_right hM (by positivity))
    _ = ((M * mult : ℕ) : ℤ) := by
          rw [show ((M : ℚ) * (mult : ℚ)) = ((M * mult : ℕ) : ℚ) by push_cast; ring]
          exact Int.floor_natCast _

/-! ## Claim theorems -/

/-- Claim C1 (code_bug evidence).  The spec says a malformed stored
session value is treated as if no session were stored: same outcome as
the no-record case, record discarded.  The code disagrees: a stored
value with no digit prefix makes parseInt return NaN, the expiry
comparison Date.now() - NaN > SESSION_EXPIRY_MS is false, so the hook
reports isReturningUser = true and keeps the record — even at a time
far past every expiry — while the no-record case reports false.  The
theorem evaluates the translated effect at the failing input. -/
theorem useSessionStatus_malformed_record_kept :
    sessionCheck false none 999999999999 (some "garbage") false
        = (some "garbage", true)
      ∧ sessionCheck false none 999999999999 none false = (none, false) := by
  constructor <;> decide

/-- Claim C2, counterexample.  On a successful connection the hook
stores Date.now().toString(): the stored value is the bare timestamp
string, identical for two different wallet addresses, so the record
cannot contain the connected wallet address as the claim states. -/
theorem sessionCheck_record_lacks_address :
    sessionCheck true (some "Addr1") 1000 none false = (some "1000", false)
      ∧ sessionCheck true (some "Addr2") 1000 none false = (some "1000", false)
      ∧ "Addr1" ≠ "Addr2" := by
  refine ⟨by decide, by decide, by decide⟩

/-- Claim C2 as amended.  On every successful connection the tracker
writes/overwrites under the fixed storage key the current last-active
timestamp as its decimal string — and nothing else: the stored value
does not depend on the wallet address.  The explicit clear operation
deletes the record immediately. -/
theorem sessionCheck_connected_writes_timestamp :
    (∀ (p : String) (now : ℤ) (stored : Option String) (prev : Bool),
        sessionCheck true (some p) now stored prev = (some (toString now), false))
      ∧ (∀ stored : Option String, clearSession stored = none) := by
  exact ⟨fun p now stored prev => rfl, fun stored => rfl⟩

/-- Claim C6.  A stored record whose parsed timestamp is more than 24
hours old is deleted by the check (the storage slot is none afterwards)
and the tracker reports the no-welcome-back outcome
(isReturningUser = false, the same report as when no last-active time
exists), provided the external connection is not active. -/
theorem sessionCheck_expired_record_deleted (p : Option String) (now t : ℤ)
    (s : String) (prev : Bool) (hparse : jsParseInt s = some t)
    (hexp : now - t > SESSION_EXPIRY_MS) :
    sessionCheck false p now (some s) prev = (none, false) := by
  simp only [sessionCheck, Bool.false_eq_true, false_and, if_false, hparse]
  simp [hexp]

/-- Witness for C6: the scenario stored = "0" (parsed last-active 0) at
now = 25 hours = 90000000 ms. -/
theorem sessionCheck_expired_record_deleted_witness :
    sessionCheck false none 90000000 (some "0") false = (none, false) :=
  sessionCheck_expired_record_deleted none 90000000 0 "0" false (by decide) (by decide)

/-- Claim C7, counterexample.  The claim says the tracker surfaces the
stored last-active timestamp.  The hook returns only the boolean
isReturningUser (and clearSession); its report for two young records
with different stored timestamps is the same value true, so the stored
timestamp is not surfaced. -/
theorem sessionCheck_report_independent_of_timestamp :
    (sessionCheck false none 10000000 (some "1000") false).2
        = (sessionCheck false none 10000000 (some "2000") false).2
      ∧ (sessionCheck false none 10000000 (some "1000") false).2 = true
      ∧ "1000" ≠ "2000" := by
  refine ⟨by decide, by decide, by decide⟩

/-- Claim C7 as amended.  For every stored record younger than 24 hours,
when the external connection is not active, the tracker reports the
returning-user outcome (isReturningUser = true) and leaves the stored
record unmodified; only this boolean is reported — the hook exposes no
last-active value. -/
theorem sessionCheck_young_record_flag (p : Option String) (now t : ℤ)
    (s : String) (prev : Bool) (hparse : jsParseInt s = some t)
    (hyoung : now - t ≤ SESSION_EXPIRY_MS) :
    sessionCheck false p now (some s) prev = (some s, true) := by
  simp only [sessionCheck, Bool.false_eq_true, false_and, if_false, hparse]
  simp [hyoung]

/-- Witness for C7: a record one second old. -/
theorem sessionCheck_young_record_flag_witness :
    sessionCheck false none 1500 (some "500") false = (some "500", true) :=
  sessionCheck_young_record_flag none 1500 500 "500" false (by decide) (by decide)

/-- Claim C3, counterexample.  The claim says the two queries are
independent and that when the native query fails but the stablecoin
query succeeds, the stablecoin result is still reported with the native
side contributing 0/absent.  In the code the two queries sit in one
try block with the stablecoin query second: a native-side throw reaches
the outer catch before the stablecoin query's result can be stored, the
balances stay at their previous values (here sol = 7, usdc = 3, not the
fresh usdc value 5) and the error is surfaced. -/
theorem fetchBalances_native_failure_discards_usdc :
    fetchBalances (some "W") (.error ⟨true, "network down"⟩) (.ok (some "5"))
        ⟨mkRat 7 1, .fin (mkRat 3 1)⟩ none
      = (⟨mkRat 7 1, .fin (mkRat 3 1)⟩, some "network down") := by
  decide

/-- Claim C3 as amended.  The independence is one-sided: a stablecoin
query failure (for example a missing token account) is swallowed — the
stablecoin balance is reported as exactly 0, the native result is
reported, and no error is surfaced; but a native query failure fails
the combined fetch — the balances are left unchanged (a successful
stablecoin result is discarded) and the error is surfaced. -/
theorem fetchBalances_asymmetric_independence :
    (∀ (p : String) (lam : ℕ) (e : JsError) (prev : Balances) (pe : Option String),
        fetchBalances (some p) (.ok lam) (.error e) prev pe
          = (⟨mkRat (lam : ℤ) LAMPORTS_PER_SOL, .fin (mkRat 0 1)⟩, none))
      ∧ (∀ (p : String) (e : JsError) (u : Except JsError (Option String))
          (prev : Balances) (pe : Option String),
          fetchBalances (some p) (.error e) u prev pe
            = (prev, some (if e.isErrorInstance then e.message
                           else "Failed to fetch balances"))) := by
  exact ⟨fun p lam e prev pe => rfl, fun p e u prev pe => rfl⟩

/-- Claim C8.  Whenever the pre-flight rejects a transfer request — no
wallet connected, recipient address invalid, or amount invalid — the
transfer call returns a failure result carrying that local error and
the SDK sign-and-send operation is not invoked; and conversely the SDK
is invoked exactly when every local check passes. -/
theorem transfer_rejects_locally_before_sdk :
    ∀ (c : Bool) (p : Option String) (r a : String) (t : TokenType)
      (prod : Bool) (sdk : Except JsError String),
      match localRejection c p r a t with
      | some e => transfer c p r a t prod sdk = ⟨⟨false, none, some e⟩, false⟩
      | none => (transfer c p r a t prod sdk).sdkCalled = true := by
  intro c p r a t prod sdk
  by_cases h : c ∧ p.isSome
  · rw [localRejection, transfer.eq_def, if_neg (not_not_intro h), if_neg (not_not_intro h)]
    cases hA : validateAddress r with
    | invalid e => simp [hA]
    | valid =>
      cases hM : validateAmount a t with
      | invalid e => simp [hA, hM]
      | valid => cases sdk <;> simp [hA, hM]
  · rw [localRejection, transfer.eq_def, if_pos h, if_pos h]

/-- Claim C4.  The amount validator behaves exactly as the claim words
it (validateAmountClaim), and on the claim's example inputs: "1.5" for
SOL is valid, parses to exactly 3/2, and its scaled integer is exactly
1500000000 = 1.5 × 10^9 (no precision loss in the exact model); "0",
"-1" and "abc" are invalid; "1000001" for SOL is invalid with the
message referencing the maximum. -/
theorem validateAmount_matches_claim :
    (∀ (s : String) (t : TokenType), validateAmount s t = validateAmountClaim s t)
      ∧ validateAmount "1.5" .SOL = .valid
      ∧ jsParseFloat "1.5" = .fin (3 / 2)
      ∧ scaledUnits "1.5" .SOL = some 1500000000
      ∧ qMulNat (3 / 2) (multiplierOf .SOL) = mkRat 1500000000 1
      ∧ validateAmount "0" .SOL = .invalid "Enter a valid amount"
      ∧ validateAmount "-1" .SOL = .invalid "Enter a valid amount"
      ∧ validateAmount "abc" .SOL = .invalid "Enter a valid amount"
      ∧ validateAmount "1000001" .SOL = .invalid "Max 1,000,000 SOL" := by
  refine ⟨fun s t => ?_, by decide, ?_, by decide, ?_, by decide,
    by decide, by decide, by decide⟩
  · cases t <;>
      simp only [validateAmount, validateAmountClaim, maxAmountOf, multiplierOf,
        MAX_SOL_AMOUNT, MAX_USDC_AMOUNT, maxMessageOf, Nat.cast_ofNat, reduceIte,
        reduceCtorEq, if_false, if_true]
  · have h : jsParseFloat "1.5" = .fin (mkRat 15 10) := by decide
    rw [h, Rat.mkRat_eq_divInt, Rat.divInt_eq_div]
    norm_num
  · rw [qMulNat_eq, Rat.mkRat_one]
    norm_num [multiplierOf]

/-- Claim C5.  The address validator behaves exactly as the claim words
it (validateAddressClaim), and on example inputs: the empty and
whitespace-only strings are rejected as required, a 3-character and a
45-character string are rejected for length, a 40-character string of
characters outside the base58 alphabet is rejected as unparseable, the
system-program address (32 ones) is rejected, and a syntactically valid
32-character address is accepted. -/
theorem validateAddress_matches_claim :
    (∀ s : String, validateAddress s = validateAddressClaim s)
      ∧ validateAddress "" = .invalid "Address required"
      ∧ validateAddress "   " = .invalid "Address required"
      ∧ validateAddress "abc" = .invalid "Invalid address length"
      ∧ validateAddress (String.mk (List.replicate 45 '1')) = .invalid "Invalid address length"
      ∧ validateAddress (String.mk (List.replicate 40 'O')) = .invalid "Invalid Solana address"
      ∧ validateAddress (String.mk (List.replicate 32 '1')) = .invalid "Cannot send to system program"
      ∧ validateAddress (String.mk (List.replicate 31 '1' ++ ['2'])) = .valid := by
  refine ⟨fun s => rfl, by decide, by decide, by decide, by decide, by decide,
    by decide, by decide⟩

/-- Claim C9.  The error sanitizer behaves exactly as the claim words it
(sanitizeErrorClaim), and on examples of every row of the table: an
insufficient-funds message, a network failure, a user rejection, a
timeout, an unmatched message in production (suppressed) and in
development (raw), and a non-Error thrown value. -/
theorem sanitizeError_matches_claim :
    (∀ (e : Bool) (m : String) (p : Bool),
        sanitizeError e m p = sanitizeErrorClaim e m p)
      ∧ sanitizeError true "Error: INSUFFICIENT lamports" true = "Insufficient balance"
      ∧ sanitizeError true "network request failed" true = "Network error. Try again."
      ∧ sanitizeError true "User rejected the request" false = "Transaction cancelled"
      ∧ sanitizeError true "rpc timeout" true = "Request timed out"
      ∧ sanitizeError true "something odd" true = "Transaction failed"
      ∧ sanitizeError true "something odd" false = "something odd"
      ∧ sanitizeError false "anything" true = "Operation failed" := by
  refine ⟨fun e m p => rfl, by decide, by decide, by decide, by decide, by decide,
    by decide, by decide⟩

/-- Claim C10.  The safe-integer overflow branch of validateAmount is
unreachable: the validator never returns the "Amount too large" error,
because every parsed value that passes the positivity check and the
per-asset ceiling check has its scaled floor within the safe-integer
range (second conjunct: the explicit bound). -/
theorem validateAmount_overflow_branch_unreachable :
    ∀ (s : String) (t : TokenType),
      validateAmount s t ≠ .invalid "Amount too large"
        ∧ (∀ q : ℚ, jsParseFloat s = .fin q → mkRat 0 1 < q →
            q ≤ mkRat (maxAmountOf t : ℤ) 1 →
            (Rat.floor (qMulNat q (multiplierOf t))).natAbs ≤ MAX_SAFE_INTEGER) := by
  intro s t
  have bound : ∀ q : ℚ, 0 < q → q ≤ ((maxAmountOf t : ℕ) : ℚ) →
      (Rat.floor (qMulNat q (multiplierOf t))).natAbs ≤ MAX_SAFE_INTEGER := by
    intro q h0 hM
    have hb := floor_scaled_bounds q (maxAmountOf t) (multiplierOf t) h0 hM
    rw [qMulNat_eq, ratFloor_eq_intFloor]
    have hprod : ((maxAmountOf t * multiplierOf t : ℕ) : ℤ) ≤ (MAX_SAFE_INTEGER : ℤ) := by
      cases t <;> decide
    omega
  constructor
  · rw [validateAmount.eq_def]
    cases hp : jsParseFloat s with
    | nan => simp [jsIsNaN]
    | inf neg => cases neg <;> cases t <;> simp [jsIsNaN, jsLeQ, jsGtQ, maxMessageOf]
    | fin q =>
      by_cases h0 : q ≤ (0 : ℚ)
      · simp [jsIsNaN, jsLeQ, jsGtQ, Rat.mkRat_one, h0]
      · by_cases hM : ((maxAmountOf t : ℕ) : ℚ) < q
        · cases t <;>
            simp [jsIsNaN, jsLeQ, jsGtQ, Rat.mkRat_one, maxMessageOf, h0, hM]
        · have hsafe : jsSafeFloorMul (.fin q) (multiplierOf t) = true := by
            simp only [jsSafeFloorMul, decide_eq_true_eq]
            exact bound q (lt_of_not_le h0) (le_of_not_lt hM)
          simp [jsIsNaN, jsLeQ, jsGtQ, Rat.mkRat_one, h0, hM, hsafe]
  · intro q hpq h0 hM
    rw [Rat.mkRat_one] at h0 hM
    have h0' : (0 : ℚ) < q := by exact_mod_cast h0
    have hM' : q ≤ ((maxAmountOf t : ℕ) : ℚ) := by exact_mod_cast hM
    exact bound q h0' hM'

end LazorKit
